import Mathlib

/-!
Shallow embedding of the FilmPulse discoverability scoring engine and of the
two pieces of scoring-adjacent logic that live in the shown frontend source
(the SentimentMonitor fallback hype score, and the authFetch wrapper).

The scoring engine itself (README: backend `deliverables/ml/discoverability.py`,
"Signature score formula") is not among the provided files; the spec defines it
as a deterministic contract.  Definitions for that engine are therefore
modelled from the spec and marked as such in their doc comments.  Everything
else is translated directly from the JavaScript source files.
-/

namespace FilmPulse

/-- Letter grade bucketing of the composite score (spec §3, and the grade keys
of the `gradeColor` map in the FilmsPage source). -/
inductive Grade where
  | A
  | B
  | C
  | D
deriving DecidableEq, Repr

/-- From src/unnamed/part_001 line 329 (FilmsPage):
`const gradeColor = { A: '#10B981', B: '#F5C842', C: '#06B6D4', D: '#EF4444' }`. -/
def gradeColor : Grade → String
  | .A => "#10B981"
  | .B => "#F5C842"
  | .C => "#06B6D4"
  | .D => "#EF4444"

/-- JavaScript `Math.round` on an exact rational: round half toward positive
infinity, i.e. `⌊q + 1/2⌋`. -/
def jsRound (q : ℚ) : ℤ := ⌊q + 1/2⌋

/-- Python built-in `round` on an exact rational: round half to even
(banker's rounding).  The missing scoring module is a Python file
(`discoverability.py`), so its `round` is this one. -/
def pyRound (q : ℚ) : ℤ :=
  if q - ⌊q⌋ < 1/2 then ⌊q⌋
  else if 1/2 < q - ⌊q⌋ then ⌊q⌋ + 1
  else if ⌊q⌋ % 2 = 0 then ⌊q⌋ else ⌊q⌋ + 1

/-- Clamp an integer score into the interval [0, 100]. -/
def clamp100 (n : ℤ) : ℤ := max 0 (min 100 n)

/-- The five named sub-scores of a film's discoverability (spec §3), each a
fraction in [0,1]; the field names mirror the breakdown keys rendered by the
Dashboard source (src/unnamed/part_002 lines 581-585). -/
structure DiscoverabilityBreakdown where
  audience_match : ℚ
  buzz_score : ℚ
  competition_index : ℚ
  budget_efficiency : ℚ
  release_timing : ℚ
deriving DecidableEq, Repr

/-- Modelled from the spec: the fixed weights
{audience_match 25%, buzz_score 20%, competition_index 15%,
budget_efficiency 20%, release_timing 20%}, in the order of the breakdown
fields (the same percentages appear as UI weight labels in the Dashboard
source). -/
def weights : List ℚ := [25/100, 20/100, 15/100, 20/100, 20/100]

/-- The five sub-scores of a breakdown, listed in the weight order. -/
def subScores (b : DiscoverabilityBreakdown) : List ℚ :=
  [b.audience_match, b.buzz_score, b.competition_index,
   b.budget_efficiency, b.release_timing]

/-- Modelled from the spec: the Weighted Composite Calculator (spec §4.2),
`composite = round(100 × Σ(weight_i × subscore_i))`, clamped to [0,100];
the implementing module `discoverability.py` is absent from the sources.
`round` is Python's round, the only reading under which the spec's own
scenario (sub-scores 0.9/0.8/0.6/0.7/0.75 → 76) comes out as stated. -/
def composite (b : DiscoverabilityBreakdown) : ℤ :=
  clamp100 (pyRound (100 * (List.zipWith (fun w s => w * s) weights (subScores b)).sum))

/-- Modelled from the spec: the Grade Mapper (spec §4.3), fixed thresholds,
boundary values belong to the higher grade. -/
def gradeOf (s : ℤ) : Grade :=
  if 80 ≤ s then .A
  else if 65 ≤ s then .B
  else if 50 ≤ s then .C
  else .D

/-- A film as registered through the FilmsPage form (src/unnamed/part_001
lines 396-399) and the spec's Film entity (spec §3). -/
structure Film where
  film_id : String
  title : String
  genre : String
  language : String
  budget : ℚ
  release_date : Option String
  platform : String
  cast_popularity : ℚ
deriving DecidableEq, Repr

/-- Modelled from the spec: the upstream signals consumed by the Input
Normalizer (spec §4.1) — a sentiment-engine hype score (0–100, `none` when no
sentiment data exists yet), a competition metric and a budget-efficiency
metric; the providing ML modules are README stubs absent from the sources. -/
structure Signals where
  hype_score : Option ℚ
  competition : ℚ
  budget_metric : ℚ
deriving DecidableEq, Repr

/-- Modelled from the spec: the exact normalization formulas for
audience_match, competition_index, budget_efficiency and release_timing are
not present in the provided source (spec §9 open question); they are
configurable pure policy functions behind a stable interface. -/
structure Policies where
  audienceMatch : Film → ℚ
  competitionIndex : ℚ → ℚ
  budgetEfficiency : Film → ℚ → ℚ
  releaseTiming : String → ℚ

/-- Modelled from the spec: the documented neutral default for buzz_score when
no sentiment data exists yet (spec §4.1: "a neutral default (e.g., 0.5)"). -/
def neutralBuzz : ℚ := 1/2

/-- Modelled from the spec: the documented neutral default for release_timing
when release_date is absent (spec §4.1). -/
def neutralTiming : ℚ := 1/2

/-- Modelled from the spec: the Input Normalizer (spec §4.1) — maps a Film and
upstream signals to a DiscoverabilityBreakdown; buzz_score is hype_score/100
or the neutral default, release_timing degrades to the neutral default when
release_date is absent. -/
def normalize (pol : Policies) (film : Film) (sig : Signals) :
    DiscoverabilityBreakdown :=
  { audience_match := pol.audienceMatch film
    buzz_score :=
      match sig.hype_score with
      | some h => h / 100
      | none => neutralBuzz
    competition_index := pol.competitionIndex sig.competition
    budget_efficiency := pol.budgetEfficiency film sig.budget_metric
    release_timing :=
      match film.release_date with
      | some d => pol.releaseTiming d
      | none => neutralTiming }

/-- The error taxonomy of the scoring engine relevant to the observable
contract (spec §7). -/
inductive ScoreError where
  | InvalidInput
  | UpstreamUnavailable
deriving DecidableEq, Repr

/-- The Film invariant checked before computing (spec §3 and §4.1):
budget > 0 and cast_popularity ∈ [1,10]. -/
def validFilm (f : Film) : Prop :=
  0 < f.budget ∧ 1 ≤ f.cast_popularity ∧ f.cast_popularity ≤ 10

instance (f : Film) : Decidable (validFilm f) := by
  unfold validFilm
  infer_instance

/-- The derived result entity (spec §3): composite 0–100, grade, breakdown. -/
structure DiscoverabilityResult where
  composite : ℤ
  grade : Grade
  breakdown : DiscoverabilityBreakdown
deriving DecidableEq, Repr

/-- Modelled from the spec: the single compute entry point (spec §6),
`computeDiscoverability(film, signals) -> DiscoverabilityResult`.  The film is
validated before computing (InvalidInput); the outcome of the upstream signal
fetch is an explicit argument, and a failed fetch fails the whole analysis
(UpstreamUnavailable) rather than computing with partial inputs (spec §5). -/
def computeDiscoverability (pol : Policies) (film : Film)
    (fetch : Except Unit Signals) : Except ScoreError DiscoverabilityResult :=
  if validFilm film then
    match fetch with
    | .error _ => .error .UpstreamUnavailable
    | .ok sig =>
      let b := normalize pol film sig
      .ok ⟨composite b, gradeOf (composite b), b⟩
  else .error .InvalidInput

/-- The Score Store (spec §4.4) as an association list from film identifier to
the latest stored DiscoverabilityResult. -/
abbrev ScoreStore := List (String × DiscoverabilityResult)

/-- Modelled from the spec: Score Store upsert by film identifier
(spec §4.4). -/
def upsert (store : ScoreStore) (id : String) (r : DiscoverabilityResult) :
    ScoreStore :=
  (id, r) :: store.filter (fun e => e.1 != id)

/-- Modelled from the spec: one whole analysis request (spec §5) — compute,
then persist atomically; on any error the store is left untouched (no partial
write, spec §7). -/
def analyzeFilm (pol : Policies) (film : Film) (fetch : Except Unit Signals)
    (store : ScoreStore) :
    Except ScoreError DiscoverabilityResult × ScoreStore :=
  match computeDiscoverability pol film fetch with
  | .error e => (.error e, store)
  | .ok r => (.ok r, upsert store film.film_id r)

/-- A social post as held in SentimentMonitor state (src/unnamed/part_001):
only the sentiment label matters to the hype computation. -/
structure Tweet where
  user : String
  text : String
  severity : String
deriving DecidableEq, Repr

/-- From SentimentMonitor line 760: number of posts whose severity is
'positive'. -/
def posCount (tweets : List Tweet) : ℕ :=
  (tweets.filter (fun t => t.severity == "positive")).length

/-- From SentimentMonitor line 763: `const total = Math.max(tweets.length, 1)`. -/
def totalCount (tweets : List Tweet) : ℕ := max tweets.length 1

/-- From SentimentMonitor line 765: the fallback hype score
`Math.round((pos / total) * 74 + 20)`. -/
def fallbackHype (tweets : List Tweet) : ℤ :=
  jsRound ((posCount tweets : ℚ) / (totalCount tweets : ℚ) * 74 + 20)

/-- The part of a sentiment-analysis API response read by the hype display. -/
structure MLResult where
  hype_score : ℤ
deriving DecidableEq, Repr

/-- From SentimentMonitor line 765:
`const hype = mlResult?.hype_score ?? Math.round((pos / total) * 74 + 20)`. -/
def displayedHype (mlResult : Option MLResult) (tweets : List Tweet) : ℤ :=
  match mlResult with
  | some m => m.hype_score
  | none => fallbackHype tweets

/-- Request options as passed to fetch, with headers as a JavaScript object.
A JS object spread `{...a, ...b}` lets later entries shadow earlier ones with
the same key; in this first-match association-list model, shadowing entries
are placed in front. -/
structure RequestOpts where
  method : Option String := none
  body : Option String := none
  headers : List (String × String) := []
deriving DecidableEq, Repr

/-- Look a header up in a request's header object (first match wins, matching
JS object key shadowing under the placement convention above). -/
def getHeader (hs : List (String × String)) (k : String) : Option String :=
  hs.lookup k

/-- The request a fetch call issues: a URL plus options. -/
structure FetchRequest where
  url : String
  opts : RequestOpts
deriving DecidableEq, Repr

/-- A plain `fetch(url, opts)` with the caller's options. -/
def plainFetch (url : String) (opts : RequestOpts) : FetchRequest :=
  ⟨url, opts⟩

/-- From AuthContext.jsx lines 62-63: the spread
`...(token ? { Authorization: Bearer token } : {})`, which comes last in the
headers object and therefore shadows any caller entry of the same key. -/
def authEntries (token : Option String) : List (String × String) :=
  match token with
  | some t => [("Authorization", "Bearer " ++ t)]
  | none => []

/-- From AuthContext.jsx lines 58-66: `authFetch(url, opts)` forwards the
options, rebuilding the headers object as
`{...(opts.headers || {}), ...(token ? { Authorization: ... } : {})}`. -/
def authFetch (token : Option String) (url : String) (opts : RequestOpts) :
    FetchRequest :=
  ⟨url, { opts with headers := authEntries token ++ opts.headers }⟩

/-- A concrete policy assignment, used to instantiate universally quantified
statements about the engine at a specific input. -/
def demoPolicies : Policies :=
  { audienceMatch := fun _ => 1/2
    competitionIndex := fun _ => 1/2
    budgetEfficiency := fun _ _ => 1/2
    releaseTiming := fun _ => 1/2 }

/-- A concrete valid film without a release date. -/
def demoFilm : Film :=
  { film_id := "FP-00000001", title := "Demo", genre := "Action"
    language := "Hindi", budget := 1, release_date := none
    platform := "Both", cast_popularity := 7 }

/-- A concrete invalid film (budget 0). -/
def demoBadFilm : Film :=
  { film_id := "FP-00000002", title := "Bad", genre := "Drama"
    language := "Tamil", budget := 0, release_date := none
    platform := "OTT", cast_popularity := 7 }

/-- A concrete upstream signal bundle. -/
def demoSignals : Signals :=
  { hype_score := some 80, competition := 1/2, budget_metric := 1/2 }

/-- Claim C1: for every DiscoverabilityBreakdown, the Weighted Composite
Calculator returns the round of 100 times the weighted sum with weights
25/20/15/20/20 percent, clamped to [0,100]; for the breakdown
(0.9, 0.8, 0.6, 0.7, 0.75) the composite equals 76. -/
theorem composite_weighted_formula :
    (∀ b : DiscoverabilityBreakdown,
      composite b =
        clamp100 (pyRound (100 *
          (25/100 * b.audience_match + 20/100 * b.buzz_score +
           15/100 * b.competition_index + 20/100 * b.budget_efficiency +
           20/100 * b.release_timing)))) ∧
    composite ⟨9/10, 8/10, 6/10, 7/10, 3/4⟩ = 76 := by
  constructor
  · intro b
    unfold composite weights subScores
    congr 2
    simp [List.zipWith]
    ring
  · norm_num [composite, weights, subScores, clamp100, pyRound, Int.floor_eq_iff]

/-- Claim C2: the Grade Mapper sends a composite s to A when 80 ≤ s, to B when
65 ≤ s < 80, to C when 50 ≤ s < 65 and to D when s < 50; every boundary value
belongs to the higher grade, and the listed concrete scores map as stated. -/
theorem grade_mapper_thresholds :
    (∀ s : ℤ,
      (gradeOf s = Grade.A ↔ 80 ≤ s) ∧
      (gradeOf s = Grade.B ↔ 65 ≤ s ∧ s < 80) ∧
      (gradeOf s = Grade.C ↔ 50 ≤ s ∧ s < 65) ∧
      (gradeOf s = Grade.D ↔ s < 50)) ∧
    gradeOf 80 = Grade.A ∧ gradeOf 79 = Grade.B ∧
    gradeOf 65 = Grade.B ∧ gradeOf 64 = Grade.C ∧
    gradeOf 50 = Grade.C ∧ gradeOf 49 = Grade.D ∧
    gradeOf 100 = Grade.A ∧ gradeOf 0 = Grade.D := by
  constructor
  · intro s
    unfold gradeOf
    split_ifs with h1 h2 h3 <;> refine ⟨?_, ?_, ?_, ?_⟩ <;> simp <;> omega
  · exact ⟨by decide, by decide, by decide, by decide, by decide, by decide,
      by decide, by decide⟩

/-- Python rounding sends a rational in [0, 100] to an integer in [0, 100]. -/
lemma pyRound_mem_Icc {q : ℚ} (h0 : 0 ≤ q) (h100 : q ≤ 100) :
    0 ≤ pyRound q ∧ pyRound q ≤ 100 := by
  have hfle : (⌊q⌋ : ℚ) ≤ q := Int.floor_le q
  have hf0 : (0 : ℤ) ≤ ⌊q⌋ := Int.le_floor.mpr (by exact_mod_cast h0)
  have hf100 : ⌊q⌋ ≤ 100 := by exact_mod_cast hfle.trans h100
  unfold pyRound
  split_ifs with a b c
  · exact ⟨hf0, hf100⟩
  · have hlt : (⌊q⌋ : ℚ) < 100 := by linarith
    have hlt2 : ⌊q⌋ < 100 := by exact_mod_cast hlt
    omega
  · exact ⟨hf0, hf100⟩
  · have heq : q - (⌊q⌋ : ℚ) = 1/2 := le_antisymm (not_lt.mp b) (not_lt.mp a)
    have hlt : (⌊q⌋ : ℚ) < 100 := by linarith
    have hlt2 : ⌊q⌋ < 100 := by exact_mod_cast hlt
    omega

/-- Claim C3: the fixed weights sum to 1, and for every breakdown whose five
sub-scores lie in [0,1] the composite lies in [0,100]; for such breakdowns
the clamp is in fact a no-op. -/
theorem composite_in_range (b : DiscoverabilityBreakdown)
    (h1 : 0 ≤ b.audience_match) (h2 : b.audience_match ≤ 1)
    (h3 : 0 ≤ b.buzz_score) (h4 : b.buzz_score ≤ 1)
    (h5 : 0 ≤ b.competition_index) (h6 : b.competition_index ≤ 1)
    (h7 : 0 ≤ b.budget_efficiency) (h8 : b.budget_efficiency ≤ 1)
    (h9 : 0 ≤ b.release_timing) (h10 : b.release_timing ≤ 1) :
    weights.sum = 1 ∧ 0 ≤ composite b ∧ composite b ≤ 100 ∧
    composite b =
      pyRound (100 * (List.zipWith (fun w s => w * s) weights (subScores b)).sum) := by
  have hsum0 : 0 ≤ 100 * (List.zipWith (fun w s => w * s) weights (subScores b)).sum := by
    simp [weights, subScores, List.zipWith]
    linarith
  have hsum100 :
      100 * (List.zipWith (fun w s => w * s) weights (subScores b)).sum ≤ 100 := by
    simp [weights, subScores, List.zipWith]
    linarith
  have hmem := pyRound_mem_Icc hsum0 hsum100
  have hco : composite b =
      pyRound (100 * (List.zipWith (fun w s => w * s) weights (subScores b)).sum) := by
    unfold composite clamp100
    rw [min_eq_right hmem.2, max_eq_right hmem.1]
  refine ⟨by norm_num [weights], ?_, ?_, hco⟩
  · rw [hco]; exact hmem.1
  · rw [hco]; exact hmem.2

/-- Witness for composite_in_range at the all-ones breakdown. -/
theorem composite_in_range_witness :
    weights.sum = 1 ∧ 0 ≤ composite ⟨1, 1, 1, 1, 1⟩ ∧
      composite ⟨1, 1, 1, 1, 1⟩ ≤ 100 ∧
      composite ⟨1, 1, 1, 1, 1⟩ =
        pyRound (100 *
          (List.zipWith (fun w s => w * s) weights (subScores ⟨1, 1, 1, 1, 1⟩)).sum) :=
  composite_in_range ⟨1, 1, 1, 1, 1⟩ (by decide) (by decide) (by decide)
    (by decide) (by decide) (by decide) (by decide) (by decide) (by decide)
    (by decide)

/-- Claim C4: two calls of computeDiscoverability with identical film and
identical signals return identical DiscoverabilityResult values, and the
composite is a pure function of the breakdown — equal breakdowns always give
equal composites. -/
theorem compute_deterministic (pol : Policies) (film1 film2 : Film)
    (sig1 sig2 : Except Unit Signals) (hf : film1 = film2) (hs : sig1 = sig2) :
    computeDiscoverability pol film1 sig1 = computeDiscoverability pol film2 sig2 ∧
    ∀ b1 b2 : DiscoverabilityBreakdown, b1 = b2 → composite b1 = composite b2 := by
  subst hf
  subst hs
  exact ⟨rfl, fun b1 b2 h => by rw [h]⟩

/-- Witness for compute_deterministic at the demo film and signals. -/
theorem compute_deterministic_witness :
    computeDiscoverability demoPolicies demoFilm (.ok demoSignals) =
      computeDiscoverability demoPolicies demoFilm (.ok demoSignals) ∧
    ∀ b1 b2 : DiscoverabilityBreakdown, b1 = b2 → composite b1 = composite b2 :=
  compute_deterministic demoPolicies demoFilm demoFilm (.ok demoSignals)
    (.ok demoSignals) rfl rfl

/-- Claim C5: a film whose budget is ≤ 0 or whose cast_popularity lies outside
[1,10] fails the analysis with InvalidInput before computing, and the Score
Store is left exactly as it was — no partial write. -/
theorem invalid_input_no_write (pol : Policies) (film : Film)
    (fetch : Except Unit Signals) (store : ScoreStore)
    (h : film.budget ≤ 0 ∨ film.cast_popularity < 1 ∨ 10 < film.cast_popularity) :
    analyzeFilm pol film fetch store =
      (Except.error ScoreError.InvalidInput, store) := by
  have hv : ¬ validFilm film := by
    unfold validFilm
    rintro ⟨a, b, c⟩
    rcases h with h | h | h <;> linarith
  unfold analyzeFilm computeDiscoverability
  rw [if_neg hv]

/-- Witness for invalid_input_no_write at the zero-budget demo film. -/
theorem invalid_input_no_write_witness :
    analyzeFilm demoPolicies demoBadFilm (.ok demoSignals) [] =
      (Except.error ScoreError.InvalidInput, []) :=
  invalid_input_no_write demoPolicies demoBadFilm (.ok demoSignals) []
    (Or.inl (by decide))

/-- Claim C6: a valid film with release_date absent does not fail:
computeDiscoverability succeeds on its normalized breakdown, and that
breakdown's release_timing sub-score is exactly the documented neutral
default, so the composite is the weighted formula at that substitution. -/
theorem missing_release_date_neutral (pol : Policies) (film : Film)
    (sig : Signals) (hv : validFilm film) (hrd : film.release_date = none) :
    computeDiscoverability pol film (.ok sig) =
      Except.ok
        ⟨composite (normalize pol film sig),
         gradeOf (composite (normalize pol film sig)),
         normalize pol film sig⟩ ∧
    (normalize pol film sig).release_timing = neutralTiming := by
  constructor
  · unfold computeDiscoverability
    rw [if_pos hv]
  · simp [normalize, hrd]

/-- Witness for missing_release_date_neutral at the demo film (which has no
release date). -/
theorem missing_release_date_neutral_witness :
    computeDiscoverability demoPolicies demoFilm (.ok demoSignals) =
      Except.ok
        ⟨composite (normalize demoPolicies demoFilm demoSignals),
         gradeOf (composite (normalize demoPolicies demoFilm demoSignals)),
         normalize demoPolicies demoFilm demoSignals⟩ ∧
    (normalize demoPolicies demoFilm demoSignals).release_timing = neutralTiming :=
  missing_release_date_neutral demoPolicies demoFilm demoSignals
    (by refine ⟨by decide, by decide, by decide⟩) rfl

/-- Claim C7: when the upstream signal fetch fails for a (valid) film — an
invalid film is rejected before any fetch — the whole analysis fails with
UpstreamUnavailable, and the Score Store, hence any previously stored result
for that film, is unchanged: no partial result is persisted. -/
theorem upstream_failure_no_write (pol : Policies) (film : Film) (u : Unit)
    (store : ScoreStore) (hv : validFilm film) :
    analyzeFilm pol film (.error u) store =
      (Except.error ScoreError.UpstreamUnavailable, store) ∧
    (analyzeFilm pol film (.error u) store).2.lookup film.film_id =
      store.lookup film.film_id := by
  have h : analyzeFilm pol film (.error u) store =
      (Except.error ScoreError.UpstreamUnavailable, store) := by
    unfold analyzeFilm computeDiscoverability
    rw [if_pos hv]
  exact ⟨h, by rw [h]⟩

/-- Witness for upstream_failure_no_write at the demo film. -/
theorem upstream_failure_no_write_witness :
    analyzeFilm demoPolicies demoFilm (.error ()) [] =
      (Except.error ScoreError.UpstreamUnavailable, []) ∧
    (analyzeFilm demoPolicies demoFilm (.error ()) []).2.lookup demoFilm.film_id =
      List.lookup demoFilm.film_id [] :=
  upstream_failure_no_write demoPolicies demoFilm () []
    (by refine ⟨by decide, by decide, by decide⟩)

/-- Claim C8: with no ML result present, the displayed hype score is
round((pos/total)·74 + 20) with total = max(tweets.length, 1), so the divisor
is positive even for an empty feed, and for every feed the fallback lies in
[20, 94]. -/
theorem sentiment_fallback_bounds (tweets : List Tweet) :
    displayedHype none tweets =
      jsRound ((posCount tweets : ℚ) / (totalCount tweets : ℚ) * 74 + 20) ∧
    0 < totalCount tweets ∧
    20 ≤ fallbackHype tweets ∧ fallbackHype tweets ≤ 94 := by
  have hn1 : 1 ≤ totalCount tweets := le_max_right _ _
  have hpn : posCount tweets ≤ totalCount tweets :=
    le_trans (List.length_filter_le _ _) (le_max_left _ _)
  have hnQ : (0 : ℚ) < (totalCount tweets : ℚ) := by
    exact_mod_cast Nat.lt_of_lt_of_le Nat.zero_lt_one hn1
  have hr0 : 0 ≤ (posCount tweets : ℚ) / (totalCount tweets : ℚ) :=
    div_nonneg (by positivity) (le_of_lt hnQ)
  have hr1 : (posCount tweets : ℚ) / (totalCount tweets : ℚ) ≤ 1 :=
    (div_le_one hnQ).mpr (by exact_mod_cast hpn)
  have hmul0 : 0 ≤ (posCount tweets : ℚ) / (totalCount tweets : ℚ) * 74 :=
    mul_nonneg hr0 (by norm_num)
  have hmul1 : (posCount tweets : ℚ) / (totalCount tweets : ℚ) * 74 ≤ 74 := by
    have := mul_le_mul_of_nonneg_right hr1 (show (0 : ℚ) ≤ 74 by norm_num)
    linarith
  refine ⟨rfl, Nat.lt_of_lt_of_le Nat.zero_lt_one hn1, ?_, ?_⟩
  · unfold fallbackHype jsRound
    refine Int.le_floor.mpr ?_
    push_cast
    linarith
  · unfold fallbackHype jsRound
    have h95 : (posCount tweets : ℚ) / (totalCount tweets : ℚ) * 74 + 20 + 1/2 <
        ((95 : ℤ) : ℚ) := by
      push_cast
      linarith
    have := Int.floor_lt.mpr h95
    omega

/-- Claim C9 as stated is false on the code: when a token is set, a
caller-supplied Authorization header is overridden by the token spread, not
forwarded unchanged.  Concretely, at token "tok" and caller headers
[("Authorization", "Bearer old")], the forwarded Authorization value is
"Bearer tok", which differs from the caller's value. -/
theorem auth_fetch_override_cex :
    getHeader (authFetch (some "tok") "http://x"
        { headers := [("Authorization", "Bearer old")] }).opts.headers
      "Authorization" = some "Bearer tok" ∧
    getHeader ([("Authorization", "Bearer old")]) "Authorization" =
      some "Bearer old" ∧
    "Bearer tok" ≠ "Bearer old" := by
  refine ⟨rfl, rfl, by decide⟩

/-- Claim C9 (amended): authFetch forwards the URL and every caller option
unchanged, forwards every header with a key other than Authorization
unchanged, sets the Authorization header to Bearer token exactly when a token
is set (overriding any caller-supplied Authorization value), and with no
token the issued request equals a plain fetch with the caller's options. -/
theorem auth_fetch_forwarding (token : Option String) (url : String)
    (opts : RequestOpts) :
    (authFetch token url opts).url = url ∧
    (authFetch token url opts).opts.method = opts.method ∧
    (authFetch token url opts).opts.body = opts.body ∧
    (∀ k, ¬ k = "Authorization" →
      getHeader (authFetch token url opts).opts.headers k =
        getHeader opts.headers k) ∧
    (∀ t, token = some t →
      getHeader (authFetch token url opts).opts.headers "Authorization" =
        some ("Bearer " ++ t)) ∧
    (token = none → authFetch token url opts = plainFetch url opts) := by
  refine ⟨rfl, rfl, rfl, ?_, ?_, ?_⟩
  · intro k hk
    cases token with
    | none => rfl
    | some t =>
      have hb : (k == "Authorization") = false := beq_eq_false_iff_ne.mpr hk
      simp [authFetch, authEntries, getHeader, List.lookup, hb]
  · intro t ht
    subst ht
    simp [authFetch, authEntries, getHeader, List.lookup]
  · intro ht
    subst ht
    rfl

/-- Witness for auth_fetch_forwarding: a non-Authorization header passes
through unchanged at a concrete token, URL and options. -/
theorem auth_fetch_forwarding_witness :
    getHeader (authFetch (some "t") "u"
        { headers := [("X-Req", "1")] }).opts.headers "X-Req" =
      getHeader ([("X-Req", "1")]) "X-Req" :=
  (auth_fetch_forwarding (some "t") "u" { headers := [("X-Req", "1")] }).2.2.2.1
    "X-Req" (by decide)

end FilmPulse
